import Mathlib

/-!
Verification of the `midtermproject` calculator against its specification.

Shallow embedding conventions:
* Python `Decimal` values are embedded as exact rationals `ℚ`.  All the
  operations the claims exercise (`%`, `//`, `abs`, `-`, `*`) are exact on
  `Decimal` at the inputs considered; `Decimal` division is idealized to
  exact rational division.  The float-based `pow` pathway is modelled by a
  fallible primitive (`pyFloatPow`) that raises the complex-conversion
  `TypeError` where the program does and whose numeric value is pinned
  only on a domain where the binary64 computation is exact.
* `Decimal` `//` truncates the true quotient toward zero and `%` returns a
  remainder with the sign of the dividend; the embedding mirrors that via
  `ratTrunc`.
* Fallible Python code is embedded as `Except PyErr α`; raising an
  exception becomes returning `.error`.
-/

/-- Error taxonomy.  `ValidationError`, `OperationError` and
`ConfigurationError` are declared in `app/exceptions.py`, which is not among
the sources.  Modelled from the spec: §7 gives the taxonomy as three distinct
error kinds; `valueError` and `attributeError` are the Python builtins raised
directly by `OperationFactory.create_operation` and `AutoSaveObserver.update`. -/
inductive PyErr where
  | validationError (msg : String)
  | operationError (msg : String)
  | configurationError (msg : String)
  | valueError (msg : String)
  | attributeError (msg : String)
  | typeError (msg : String)
  deriving DecidableEq, Repr

instance {ε α : Type} [DecidableEq ε] [DecidableEq α] : DecidableEq (Except ε α) := fun x y =>
  match x, y with
  | .ok a, .ok b =>
      if h : a = b then isTrue (by rw [h]) else isFalse (fun hc => h (Except.ok.inj hc))
  | .error e, .error f =>
      if h : e = f then isTrue (by rw [h]) else isFalse (fun hc => h (Except.error.inj hc))
  | .ok _, .error _ => isFalse (fun hc => nomatch hc)
  | .error _, .ok _ => isFalse (fun hc => nomatch hc)

/-- The six operation variants of `app/operations.py`. -/
inductive OpVariant where
  | power
  | root
  | modulus
  | integerDivision
  | percentageCalculation
  | absoluteDifference
  deriving DecidableEq, Repr

/-- `Operation.__str__` / the class name used as `Calculation.operation`. -/
def OpVariant.name : OpVariant → String
  | .power => "Power"
  | .root => "Root"
  | .modulus => "Modulus"
  | .integerDivision => "IntegerDivision"
  | .percentageCalculation => "PercentageCalculation"
  | .absoluteDifference => "AbsoluteDifference"

/-- Truncation of a rational toward zero: the rounding used by Python
`Decimal`'s `divide-integer` operation (`//`). -/
def ratTrunc (q : ℚ) : ℤ :=
  (Int.sign q.num) * ((q.num.natAbs / q.den : ℕ) : ℤ)

/-- Python `int(a // b)` on `Decimal`s: the true quotient truncated toward
zero (`Decimal` floor-division truncates, it does not floor). -/
def pyIntDiv (a b : ℚ) : ℤ := ratTrunc (a / b)

/-- Python `a % b` on `Decimal`s: remainder after truncated division, so the
result (if nonzero) carries the sign of the dividend `a`. -/
def pyMod (a b : ℚ) : ℚ := a - b * (ratTrunc (a / b) : ℚ)

/-- The domain on which the binary64 evaluation of `pow` is exact in the
model: an integer base of magnitude at most `2^10`, an integer exponent
between `0` and `32`, and an exact result whose magnitude stays below
`2^53`.  Base and result are then exactly representable binary64 floats
and `pow` computes such small integer powers exactly — the repository's
own tests assert these values verbatim (`test_operations.py`:
`Power.execute(2, 5) == 32`, `Power.execute(5, 2) == 25`, ...). -/
def powExactDomain (a b : ℚ) : Bool :=
  a.den = 1 && b.den = 1 && 0 ≤ b.num && b.num ≤ 32 && a.num.natAbs ≤ 2 ^ 10 &&
    (a ^ b.num.toNat).num.natAbs < 2 ^ 53

/-- The numeric value of `pow(float(a), float(b))` when the call does not
take the complex path.  Inside `powExactDomain` the binary64 computation
is exact and the model returns the exact power; outside it binary64
rounding makes the value implementation-dependent (e.g. `pow(10.0, 23.0)`
differs from `10^23`), and the model leaves it unpinned (`0`) — no
theorem below asserts anything about it there. -/
def powApprox (a b : ℚ) : ℚ :=
  if powExactDomain a b then a ^ b.num.toNat else 0

/-- `Decimal(pow(float(a), float(b)))`: on a negative base with a
non-integral exponent the builtin `pow` delegates to complex
exponentiation and returns a `complex`, which the `Decimal` constructor
rejects with an uncaught `TypeError`; otherwise the binary64 result is
converted exactly.  (CPython tests integrality of `float(b)`; that
coincides with `b.den = 1` whenever `b` is itself binary64-representable,
which covers every input considered here.)  Both computation paths of the
program contain this very same expression, so the model is shared by both
embeddings. -/
def pyFloatPow (a b : ℚ) : Except PyErr ℚ :=
  if a < 0 ∧ b.den ≠ 1 then
    .error (.typeError "conversion from complex to Decimal is not supported")
  else .ok (powApprox a b)

/-- `Decimal(pow(float(x), 1 / float(y)))`, the shared root primitive. -/
def pyFloatRoot (x y : ℚ) : Except PyErr ℚ := pyFloatPow x (1 / y)

/-- `validate_operands` of each `Operation` subclass (`app/operations.py`):
`none` when validation passes, `some e` when it raises `e`. -/
def OpVariant.validateOperands : OpVariant → ℚ → ℚ → Option PyErr
  | .power, _, b =>
      if b < 0 then some (.validationError "Negative exponents not supported") else none
  | .root, a, b =>
      if a < 0 then some (.validationError "Cannot calculate root of negative number")
      else if b = 0 then some (.validationError "Zero root is undefined")
      else none
  | .modulus, _, b =>
      if b = 0 then
        some (.validationError "Cannot compute modulus operation, divisor cannot be zero")
      else none
  | .integerDivision, _, b =>
      if b = 0 then
        some (.validationError "Cannot compute integer divison operation, divisor cannot be zero")
      else none
  | .percentageCalculation, _, b =>
      if b = 0 then
        some (.validationError "Cannot compute percentage calculation operation, divisor cannot be zero")
      else none
  | .absoluteDifference, _, _ => none

/-- The result computation of each variant's `execute` body
(`app/operations.py`), run after validation has passed; the two
float-`pow`-based variants can still raise through the `Decimal`
conversion. -/
def OpVariant.formula : OpVariant → ℚ → ℚ → Except PyErr ℚ
  | .power, a, b => pyFloatPow a b
  | .root, a, b => pyFloatRoot a b
  | .modulus, a, b => .ok (pyMod a b)
  | .integerDivision, a, b => .ok ((pyIntDiv a b : ℤ) : ℚ)
  | .percentageCalculation, a, b => .ok ((a / b) * 100)
  | .absoluteDifference, a, b => .ok |a - b|

/-- `Operation.execute(a, b)`: validate the operands, then compute. -/
def Operation.execute (op : OpVariant) (a b : ℚ) : Except PyErr ℚ :=
  match op.validateOperands a b with
  | some e => .error e
  | none => op.formula a b

/-- `Calculation.calculate` (`app/calculation.py` lines 45-85): the
operation-name-driven dispatch table.  Note its guards: `Power` checks
`y >= 0`, `Root` checks `x >= 0 and y != 0`, and `Modulus`,
`IntegerDivision` and `PercentageCalculation` all check `y > 0` (not
`y != 0`), calling `_raise_divisor_zero` otherwise.  Unknown names raise
`OperationError`.  The surrounding `try` catches only `InvalidOperation`,
`ValueError` and `ArithmeticError`, so the `TypeError` from the complex
`pow` path propagates uncaught, exactly as in `Operation.execute`. -/
def Calculation.calculate (operation : String) (x y : ℚ) : Except PyErr ℚ :=
  if operation = "Power" then
    if 0 ≤ y then pyFloatPow x y
    else .error (.operationError "Negative exponents are not supported")
  else if operation = "Root" then
    if 0 ≤ x ∧ y ≠ 0 then pyFloatRoot x y
    else if y = 0 then .error (.operationError "Zero root is undefined")
    else if x < 0 then .error (.operationError "Cannot calculate root of negative number")
    else .error (.operationError "Invalid root operation")
  else if operation = "Modulus" then
    if 0 < y then .ok (pyMod x y)
    else .error (.operationError "Division by zero is not allowed")
  else if operation = "IntegerDivision" then
    if 0 < y then .ok ((pyIntDiv x y : ℤ) : ℚ)
    else .error (.operationError "Division by zero is not allowed")
  else if operation = "PercentageCalculation" then
    if 0 < y then .ok ((x / y) * 100)
    else .error (.operationError "Division by zero is not allowed")
  else if operation = "AbsoluteDifference" then
    .ok |x - y|
  else .error (.operationError ("Unknown operation: " ++ operation))

/-- The `Calculation` dataclass (`app/calculation.py`): operation name, two
operands, the derived result, and a timestamp (embedded as an abstract
instant `ℤ`). -/
structure Calculation where
  operation : String
  operand1 : ℚ
  operand2 : ℚ
  result : ℚ
  timestamp : ℤ
  deriving DecidableEq, Repr

/-- Constructing `Calculation(operation, operand1, operand2)`:
`__post_init__` immediately runs `self.result = self.calculate()`, so
construction fails exactly when `calculate` raises. -/
def Calculation.mk' (operation : String) (operand1 operand2 : ℚ) (timestamp : ℤ) :
    Except PyErr Calculation :=
  match Calculation.calculate operation operand1 operand2 with
  | .error e => .error e
  | .ok r => .ok ⟨operation, operand1, operand2, r, timestamp⟩

/-- `Calculation.__eq__`: compares operation, operands and result;
the timestamp is excluded. -/
def Calculation.eqv (c₁ c₂ : Calculation) : Prop :=
  c₁.operation = c₂.operation ∧ c₁.operand1 = c₂.operand1 ∧
  c₁.operand2 = c₂.operand2 ∧ c₁.result = c₂.result

/-- The dictionary emitted by `Calculation.to_dict`.  In the program every
field is a string (`str(...)` of a `Decimal`, ISO-8601 of the timestamp);
`Decimal(str(d)) == d` and `fromisoformat(isoformat(t)) == t` hold exactly,
so the embedding keeps the underlying values. -/
structure CalcDict where
  operation : String
  operand1 : ℚ
  operand2 : ℚ
  result : ℚ
  timestamp : ℤ
  deriving DecidableEq, Repr

/-- `Calculation.to_dict`. -/
def Calculation.toDict (c : Calculation) : CalcDict :=
  ⟨c.operation, c.operand1, c.operand2, c.result, c.timestamp⟩

/-- `Calculation.from_dict`: reconstructs by re-running the calculation on
the stored operands (recomputing `result`), then overwrites the timestamp
from the stored data.  A mismatch between the recomputed and the stored
result only logs a warning; the reconstruction still succeeds with the
recomputed value. -/
def Calculation.fromDict (data : CalcDict) : Except PyErr Calculation :=
  match Calculation.mk' data.operation data.operand1 data.operand2 0 with
  | .error e => .error e
  | .ok c => .ok { c with timestamp := data.timestamp }

/-- `OperationFactory._operations` (`app/operations.py` lines 235-242). -/
def OperationFactory.operationsMap : List (String × OpVariant) :=
  [("power", .power),
   ("root", .root),
   ("modulus", .modulus),
   ("integer-division", .integerDivision),
   ("percentage-calculation", .percentageCalculation),
   ("absolute-difference", .absoluteDifference)]

/-- Python `str.lower`, modelled on ASCII (all registered keys are ASCII). -/
def pyLower (s : String) : String := ⟨s.data.map Char.toLower⟩

/-- `OperationFactory.create_operation`: dictionary lookup on the lowercased
name; a missing key raises the builtin `ValueError` carrying the offending
(original) name. -/
def OperationFactory.createOperation (operationType : String) : Except PyErr OpVariant :=
  match OperationFactory.operationsMap.lookup (pyLower operationType) with
  | some cls => .ok cls
  | none => .error (.valueError ("Unknown operation: " ++ operationType))

/-- `CalculatorConfig` fields the claims exercise
(`app/calculator_config.py`). -/
structure CalculatorConfig where
  maxHistorySize : ℤ
  autoSave : Bool
  precision : ℤ
  maxInputValue : ℚ
  deriving DecidableEq, Repr

/-- Python's `x or default` fallback on an optional integer argument:
`None` and `0` are falsy, so both select the default. -/
def pyOrInt (v : Option ℤ) (d : ℤ) : ℤ :=
  match v with
  | none => d
  | some n => if n = 0 then d else n

/-- Python's `x or default` fallback on an optional decimal argument. -/
def pyOrRat (v : Option ℚ) (d : ℚ) : ℚ :=
  match v with
  | none => d
  | some q => if q = 0 then d else q

/-- `CalculatorConfig.__init__` with no configuration environment variables
set, so each `os.getenv` falls back to its hard-coded default: `'1000'` for
the history size, `'true'` for auto-save, `'10'` for precision and `'1e999'`
for the maximum input value.  The numeric fields use `or`-based (truthiness)
fallbacks; `auto_save` alone uses an `is not None` test. -/
def CalculatorConfig.mk' (maxHistorySize : Option ℤ) (autoSave : Option Bool)
    (precision : Option ℤ) (maxInputValue : Option ℚ) : CalculatorConfig :=
  { maxHistorySize := pyOrInt maxHistorySize 1000
    autoSave := autoSave.getD true
    precision := pyOrInt precision 10
    maxInputValue := pyOrRat maxInputValue (10 ^ 999) }

/-- `CalculatorConfig.validate` (`app/calculator_config.py` lines 172-185). -/
def CalculatorConfig.validate (c : CalculatorConfig) : Except PyErr Unit :=
  if c.maxHistorySize ≤ 0 then .error (.configurationError "max_history_size must be positive")
  else if c.precision ≤ 0 then .error (.configurationError "precision must be positive")
  else if c.maxInputValue ≤ 0 then .error (.configurationError "max_input_value must be positive")
  else .ok ()

/-- ASCII decimal digit test. -/
def isDigitCh (c : Char) : Bool := 48 ≤ c.toNat && c.toNat ≤ 57

/-- Value of a run of digit characters. -/
def natOfDigits (l : List Char) : ℕ :=
  l.foldl (fun n c => 10 * n + (c.toNat - 48)) 0

/-- Consume an optional leading sign; returns (negative?, rest). -/
def parseSign : List Char → Bool × List Char
  | '+' :: r => (false, r)
  | '-' :: r => (true, r)
  | l => (false, l)

/-- Split at the first exponent marker `e`/`E`, if any. -/
def splitExpMark (l : List Char) : List Char × Option (List Char) :=
  let p := l.span fun c => c ≠ 'e' && c ≠ 'E'
  match p.2 with
  | [] => (p.1, none)
  | _ :: rest => (p.1, some rest)

/-- The syntactic forms a numeric string accepted by the `Decimal`
constructor can take: a finite number (sign, mantissa digits with the
point removed, count of fractional digits, exponent), a signed infinity,
or a (quiet or signaling) NaN. -/
inductive DecLit where
  | fin (neg : Bool) (mantNum : ℕ) (fracLen : ℕ) (exp : ℤ)
  | inf (neg : Bool)
  | nan (signaling : Bool)
  deriving DecidableEq, Repr

/-- Parse an unsigned mantissa `digits [. digits]` (at least one digit):
the digits' value with the point removed, and the count of fractional
digits. -/
def parseMantissaLit (l : List Char) : Option (ℕ × ℕ) :=
  let p := l.span isDigitCh
  match p.2 with
  | [] => if p.1 = [] then none else some (natOfDigits p.1, 0)
  | '.' :: fr =>
      if fr.all isDigitCh && (p.1 ≠ [] || fr ≠ []) then
        some (natOfDigits (p.1 ++ fr), fr.length)
      else none
  | _ => none

/-- Parse a signed exponent `[+|-] digits`. -/
def parseExponent (l : List Char) : Option ℤ :=
  let p := parseSign l
  if p.2 ≠ [] && p.2.all isDigitCh then
    some ((if p.1 then -1 else 1) * (natOfDigits p.2 : ℤ))
  else none

/-- PEP 515 digit-group underscores, as the C `decimal` module accepts
them: every `_` must sit immediately between two digits; returns the
character list with its underscores removed, or `none` when one is
misplaced. -/
def stripUnderscoresAux : Option Char → List Char → Option (List Char)
  | prev, '_' :: rest =>
      match prev, rest with
      | some p, r :: _ =>
          if isDigitCh p && isDigitCh r then stripUnderscoresAux prev rest
          else none
      | _, _ => none
  | _, c :: rest => (stripUnderscoresAux (some c) rest).map (c :: ·)
  | _, [] => some []

/-- A finite numeric literal `digits [. digits] [E [sign] digits]`
(the sign has already been consumed). -/
def parseFiniteLit (neg : Bool) (l : List Char) : Option DecLit :=
  let q := splitExpMark l
  match parseMantissaLit q.1 with
  | none => none
  | some m =>
      match q.2 with
      | none => some (.fin neg m.1 m.2 0)
      | some el =>
          match parseExponent el with
          | none => none
          | some e => some (.fin neg m.1 m.2 e)

/-- The numeric-string grammar accepted by the `Decimal` constructor:
`[sign] (digits [. digits] [E [sign] digits] | Infinity | Inf |
NaN [digits] | sNaN [digits])`, case-insensitive for the special values
and the exponent marker, with PEP 515 underscores between digits.
`none` models the constructor raising `InvalidOperation`.  The model is
complete over ASCII strings; the Unicode digits `Decimal` additionally
accepts are outside it (statements about the `none` branch carry an
ASCII hypothesis). -/
def parseDecimalLit (s : String) : Option DecLit :=
  match stripUnderscoresAux none s.data with
  | none => none
  | some l =>
      let p := parseSign l
      let low := p.2.map Char.toLower
      if low = "inf".data || low = "infinity".data then some (.inf p.1)
      else if low.take 3 = "nan".data && (low.drop 3).all isDigitCh then some (.nan false)
      else if low.take 4 = "snan".data && (low.drop 4).all isDigitCh then some (.nan true)
      else parseFiniteLit p.1 p.2

/-- The semantic outcome of a `Decimal(...)` construction: a finite exact
rational value, an infinity, or a NaN. -/
inductive DecValue where
  | fin (q : ℚ)
  | inf (neg : Bool)
  | nan (signaling : Bool)
  deriving DecidableEq, Repr

/-- The value denoted by a parsed numeric string. -/
def DecLit.value : DecLit → DecValue
  | .fin neg m f e => .fin ((if neg then -1 else 1) * (m : ℚ) / 10 ^ f * (10 : ℚ) ^ e)
  | .inf neg => .inf neg
  | .nan s => .nan s

/-- What a `Decimal(...)` call produces on a string, or `none` when it
raises `InvalidOperation`. -/
def parseDecimal (s : String) : Option DecValue := (parseDecimalLit s).map DecLit.value

/-- The ASCII whitespace `str.strip()` removes: space and `\t`, `\n`,
`\v`, `\f`, `\r` (code points 9-13). -/
def pyWhitespace (c : Char) : Bool := c = ' ' || (9 ≤ c.toNat && c.toNat ≤ 13)

/-- Python `str.strip()`: drop leading and trailing whitespace. -/
def pyStrip (s : String) : String :=
  ⟨((s.data.dropWhile pyWhitespace).reverse.dropWhile pyWhitespace).reverse⟩

/-- A raw input handed to `InputValidator.validate_number`: a string, an
already-numeric value (int/float/Decimal), or Python `None`. -/
inductive RawValue where
  | strV (s : String)
  | numV (q : ℚ)
  | noneV
  deriving Repr

/-- The `Decimal(str(value))` step of `validate_number` after the
string-only `strip`: the text that would appear in the error message,
paired with the construction's outcome (`none` = `InvalidOperation`).
`str` of a numeric value round-trips its exact (finite) value; `str(None)`
is `"None"`, which is not numeric. -/
def rawToDecimal : RawValue → String × Option DecValue
  | .strV s => (pyStrip s, parseDecimal (pyStrip s))
  | .numV q => ("", some (.fin q))
  | .noneV => ("None", none)

/-- Rendering of a `Decimal` in an f-string, modelled on the values the
claims mention (integers print as their digit string). -/
def ratRepr (q : ℚ) : String :=
  if q.den = 1 then toString q.num else toString q.num ++ "/" ++ toString q.den

/-- `InputValidator.validate_number` (`app/input_validators.py` lines
20-49): strip when textual, convert via `Decimal(str(value))`, reject
`abs(number) > config.max_input_value` with the range message, otherwise
return the (value-preserving) `normalize()`d number.  Only
`InvalidOperation` is caught and rewrapped as the format error, whose
message interpolates the (stripped) offending value.  An infinite input
satisfies `abs(number) > max` against the finite bound, so it takes the
range branch; on a NaN the `abs`/comparison itself signals
`InvalidOperation` inside the `try`, which the handler rewraps into the
same format error. -/
def InputValidator.validateNumber (value : RawValue) (config : CalculatorConfig) :
    Except PyErr ℚ :=
  let p := rawToDecimal value
  match p.2 with
  | none => .error (.validationError ("Invalid number format: " ++ p.1))
  | some (.fin number) =>
      if config.maxInputValue < |number| then
        .error (.validationError ("Value exceeds maximum allowed: " ++ ratRepr config.maxInputValue))
      else .ok number
  | some (.inf _) =>
      .error (.validationError ("Value exceeds maximum allowed: " ++ ratRepr config.maxInputValue))
  | some (.nan _) => .error (.validationError ("Invalid number format: " ++ p.1))

/-- Side effects `AutoSaveObserver.update` can perform on the calculator. -/
inductive ObserverEffect where
  | saveHistory
  | logInfo (msg : String)
  deriving DecidableEq, Repr

/-- `AutoSaveObserver.update` (`app/history.py` lines 64-78): a `None`
calculation raises `AttributeError`; otherwise `calculator.save_history()`
runs exactly when `config.auto_save` is set. -/
def AutoSaveObserver.update (config : CalculatorConfig) (calculation : Option Calculation) :
    Except PyErr (List ObserverEffect) :=
  match calculation with
  | none => .error (.attributeError "Calculation cannot be None")
  | some _ =>
      if config.autoSave then .ok [.saveHistory, .logInfo "History auto-saved"]
      else .ok []

/-- `CalculatorMemento` (`app/calculator_memento.py`): a snapshot of the
history plus a timestamp. -/
structure CalculatorMemento where
  history : List Calculation
  timestamp : ℤ
  deriving DecidableEq, Repr

/-- The `Calculator` state set up by `Calculator.__init__`
(`app/calculator.py` lines 59-67): history, optional operation strategy and
the two memento stacks (modelled with the most recent element first). -/
structure CalculatorState where
  history : List Calculation
  operationStrategy : Option OpVariant
  undoStack : List CalculatorMemento
  redoStack : List CalculatorMemento
  deriving DecidableEq, Repr

/-- The empty state produced by `Calculator.__init__` before any history is
loaded. -/
def CalculatorState.init : CalculatorState := ⟨[], none, [], []⟩

/-- `Calculator.set_operation`. -/
def CalculatorState.setOperation (s : CalculatorState) (op : OpVariant) : CalculatorState :=
  { s with operationStrategy := op }

/-- Modelled from the spec: `Calculator.perform_operation` is not among the
sources (only its tests call it); §4.5 specifies it.  With no strategy set
it raises "No operation set"; otherwise it validates/executes the current
strategy on the operands, builds the `Calculation`, pushes a memento of the
pre-mutation history onto the undo stack, appends the new calculation,
evicts the oldest entry when the history exceeds `max_history_size`, clears
the redo stack, and returns the result with the new state. -/
def CalculatorState.performOperation (s : CalculatorState) (config : CalculatorConfig)
    (a b : ℚ) (t : ℤ) : Except PyErr (ℚ × CalculatorState) :=
  match s.operationStrategy with
  | none => .error (.operationError "No operation set")
  | some op =>
      match Operation.execute op a b with
      | .error e => .error e
      | .ok r =>
          let c : Calculation := ⟨op.name, a, b, r, t⟩
          let grown := s.history ++ [c]
          let newHistory :=
            if config.maxHistorySize < (grown.length : ℤ) then grown.drop 1 else grown
          .ok (r, { s with
                      history := newHistory
                      undoStack := ⟨s.history, t⟩ :: s.undoStack
                      redoStack := [] })

/-- Modelled from the spec: `Calculator.undo` is not among the sources;
§4.5 specifies it.  An empty undo stack returns `false` and leaves the
state unchanged; otherwise the current history is pushed as a memento onto
the redo stack, the most recent undo memento is popped, and the history is
restored to that snapshot. -/
def CalculatorState.undo (s : CalculatorState) (t : ℤ) : Bool × CalculatorState :=
  match s.undoStack with
  | [] => (false, s)
  | m :: rest =>
      (true, { s with
                 history := m.history
                 undoStack := rest
                 redoStack := ⟨s.history, t⟩ :: s.redoStack })

/-- Modelled from the spec: `Calculator.redo` is not among the sources;
§4.5 specifies it as symmetric to `undo`. -/
def CalculatorState.redo (s : CalculatorState) (t : ℤ) : Bool × CalculatorState :=
  match s.redoStack with
  | [] => (false, s)
  | m :: rest =>
      (true, { s with
                 history := m.history
                 redoStack := rest
                 undoStack := ⟨s.history, t⟩ :: s.undoStack })

/-! ## Unfolding lemmas for the dispatch table of `Calculation.calculate` -/

theorem calculate_power_eq (x y : ℚ) :
    Calculation.calculate "Power" x y =
      if 0 ≤ y then pyFloatPow x y
      else .error (.operationError "Negative exponents are not supported") := rfl

theorem calculate_root_eq (x y : ℚ) :
    Calculation.calculate "Root" x y =
      if 0 ≤ x ∧ y ≠ 0 then pyFloatRoot x y
      else if y = 0 then .error (.operationError "Zero root is undefined")
      else if x < 0 then .error (.operationError "Cannot calculate root of negative number")
      else .error (.operationError "Invalid root operation") := rfl

theorem calculate_modulus_eq (x y : ℚ) :
    Calculation.calculate "Modulus" x y =
      if 0 < y then .ok (pyMod x y)
      else .error (.operationError "Division by zero is not allowed") := rfl

theorem calculate_intdiv_eq (x y : ℚ) :
    Calculation.calculate "IntegerDivision" x y =
      if 0 < y then .ok ((pyIntDiv x y : ℤ) : ℚ)
      else .error (.operationError "Division by zero is not allowed") := rfl

theorem calculate_pct_eq (x y : ℚ) :
    Calculation.calculate "PercentageCalculation" x y =
      if 0 < y then .ok ((x / y) * 100)
      else .error (.operationError "Division by zero is not allowed") := rfl

theorem calculate_absdiff_eq (x y : ℚ) :
    Calculation.calculate "AbsoluteDifference" x y = .ok |x - y| := rfl

/-! ## Arithmetic lemmas for the truncated `Decimal` division model -/

theorem ratTrunc_neg (q : ℚ) : ratTrunc (-q) = -ratTrunc q := by
  unfold ratTrunc
  rw [Rat.num_neg_eq_neg_num, Rat.den_neg_eq_den, Int.sign_neg, Int.natAbs_neg, neg_mul]

theorem ratTrunc_nonneg (q : ℚ) (h : 0 ≤ q) : ratTrunc q = ⌊q⌋ := by
  rw [Rat.floor_def]
  have hn : 0 ≤ q.num := Rat.num_nonneg.mpr h
  unfold ratTrunc
  rcases hn.lt_or_eq with hpos | hzero
  · rw [Int.sign_eq_one_of_pos hpos, one_mul, Int.ofNat_ediv, Int.natAbs_of_nonneg hn]
  · rw [← hzero]
    simp

theorem ratTrunc_nonpos (q : ℚ) (h : q ≤ 0) : ratTrunc q = -⌊-q⌋ := by
  have h1 : ratTrunc (-(-q)) = -ratTrunc (-q) := ratTrunc_neg (-q)
  rw [neg_neg] at h1
  rw [h1, ratTrunc_nonneg (-q) (neg_nonneg.mpr h)]

theorem pyMod_7_3 : pyMod 7 3 = 1 := by
  unfold pyMod
  rw [ratTrunc_nonneg _ (by norm_num)]
  norm_num

theorem pyMod_5_neg1 : pyMod 5 (-1) = 0 := by
  unfold pyMod
  rw [ratTrunc_nonpos _ (by norm_num)]
  norm_num

theorem pyMod_neg7_3 : pyMod (-7) 3 = -1 := by
  unfold pyMod
  rw [ratTrunc_nonpos _ (by norm_num)]
  norm_num

theorem pyIntDiv_7_3 : pyIntDiv 7 3 = 2 := by
  unfold pyIntDiv
  rw [ratTrunc_nonneg _ (by norm_num)]
  norm_num

theorem pyIntDiv_neg7_2 : pyIntDiv (-7) 2 = -3 := by
  unfold pyIntDiv
  rw [ratTrunc_nonpos _ (by norm_num)]
  norm_num

/-- C1, counterexample.  The two computation paths are not consistent: at
`(5, -1)` the `Modulus` Operation class succeeds (its validation only
rejects a zero divisor, and `Decimal` remainder gives `0`), while
`Calculation.calculate`'s `y > 0` guard raises the divisor-zero
`OperationError`; and at `(2, -3)` both `Power` paths fail but with
different error kinds and different messages. -/
theorem modulus_paths_disagree_cx :
    Operation.execute .modulus 5 (-1) = .ok 0 ∧
    Calculation.calculate "Modulus" 5 (-1) =
      .error (.operationError "Division by zero is not allowed") ∧
    Operation.execute .power 2 (-3) =
      .error (.validationError "Negative exponents not supported") ∧
    Calculation.calculate "Power" 2 (-3) =
      .error (.operationError "Negative exponents are not supported") := by
  refine ⟨?_, ?_, ?_, ?_⟩
  · have hb : (-1 : ℚ) ≠ 0 := by norm_num
    simp [Operation.execute, OpVariant.validateOperands, OpVariant.formula, hb, pyMod_5_neg1]
  · rw [calculate_modulus_eq, if_neg (by norm_num : ¬ (0 : ℚ) < -1)]
  · have hb : (-3 : ℚ) < 0 := by norm_num
    simp [Operation.execute, OpVariant.validateOperands, hb]
  · rw [calculate_power_eq, if_neg (by norm_num : ¬ (0 : ℚ) ≤ -3)]

/-- C1, amended.  The two computation paths agree in the refinement
direction: whenever `Calculation.calculate`, invoked with a variant's name,
succeeds on a pair of operands, the variant's `execute` succeeds on the
same operands with the same result.  (The converse fails — `execute`
accepts negative divisors that `calculate` rejects — and on invalid
operands the two raise different error kinds with different messages.) -/
theorem calculate_refines_execute :
    ∀ (op : OpVariant) (a b v : ℚ),
      Calculation.calculate op.name a b = .ok v → Operation.execute op a b = .ok v := by
  intro op a b v h
  cases op
  case power =>
    rw [OpVariant.name, calculate_power_eq] at h
    by_cases hy : 0 ≤ b
    · rw [if_pos hy] at h
      simp only [Operation.execute, OpVariant.validateOperands, OpVariant.formula,
        if_neg (not_lt.mpr hy)]
      exact h
    · rw [if_neg hy] at h
      exact absurd h (by simp)
  case root =>
    rw [OpVariant.name, calculate_root_eq] at h
    by_cases hc : 0 ≤ a ∧ b ≠ 0
    · rw [if_pos hc] at h
      simp only [Operation.execute, OpVariant.validateOperands, OpVariant.formula,
        if_neg (not_lt.mpr hc.1), if_neg hc.2]
      exact h
    · rw [if_neg hc] at h
      split_ifs at h
  case modulus =>
    rw [OpVariant.name, calculate_modulus_eq] at h
    by_cases hy : 0 < b
    · rw [if_pos hy, Except.ok.injEq] at h
      subst h
      simp [Operation.execute, OpVariant.validateOperands, OpVariant.formula, hy.ne']
    · rw [if_neg hy] at h
      exact absurd h (by simp)
  case integerDivision =>
    rw [OpVariant.name, calculate_intdiv_eq] at h
    by_cases hy : 0 < b
    · rw [if_pos hy, Except.ok.injEq] at h
      subst h
      simp [Operation.execute, OpVariant.validateOperands, OpVariant.formula, hy.ne']
    · rw [if_neg hy] at h
      exact absurd h (by simp)
  case percentageCalculation =>
    rw [OpVariant.name, calculate_pct_eq] at h
    by_cases hy : 0 < b
    · rw [if_pos hy, Except.ok.injEq] at h
      subst h
      simp [Operation.execute, OpVariant.validateOperands, OpVariant.formula, hy.ne']
    · rw [if_neg hy] at h
      exact absurd h (by simp)
  case absoluteDifference =>
    rw [OpVariant.name, calculate_absdiff_eq, Except.ok.injEq] at h
    subst h
    simp [Operation.execute, OpVariant.validateOperands, OpVariant.formula]

/-- C1, witness for the amended theorem at `Modulus (7, 3)`. -/
theorem calculate_refines_execute_witness :
    Operation.execute .modulus 7 3 = .ok 1 :=
  calculate_refines_execute .modulus 7 3 1
    (by rw [show OpVariant.name .modulus = "Modulus" from rfl, calculate_modulus_eq,
          if_pos (by norm_num : (0 : ℚ) < 3), pyMod_7_3])

/-- C2, counterexample.  `Calculation.calculate`'s divisor guard is
`y > 0`, not `y != 0`: at `b = -2` Modulus fails with the divisor-zero
error even though `b ≠ 0`.  And `IntegerDivision` truncates toward zero
rather than flooring: at `(-7, 2)` it returns `-3`, not `floor(-7/2) = -4`. -/
theorem calculate_divisor_guard_cx :
    Calculation.calculate "Modulus" 3 (-2) =
      .error (.operationError "Division by zero is not allowed") ∧
    Calculation.calculate "IntegerDivision" (-7) 2 = .ok (-3) ∧
    Calculation.calculate "IntegerDivision" (-7) 2 ≠ .ok (-4) ∧
    Calculation.calculate "Modulus" (-7) 3 = .ok (-1) := by
  have h2 : Calculation.calculate "IntegerDivision" (-7) 2 = .ok (-3) := by
    rw [calculate_intdiv_eq, if_pos (by norm_num : (0 : ℚ) < 2), pyIntDiv_neg7_2]
    norm_num
  refine ⟨?_, h2, ?_, ?_⟩
  · rw [calculate_modulus_eq, if_neg (by norm_num : ¬ (0 : ℚ) < -2)]
  · rw [h2]
    intro hc
    have h3 := Except.ok.inj hc
    norm_num at h3
  · rw [calculate_modulus_eq, if_pos (by norm_num : (0 : ℚ) < 3), pyMod_neg7_3]

/-- C2, amended.  For every pair of operands, `Calculation.calculate` with
`"Modulus"` returns the `Decimal` remainder (truncated division, sign of
the dividend), with `"IntegerDivision"` the quotient truncated toward zero
as an integer value, and with `"PercentageCalculation"` `(a / b) × 100`,
whenever `b > 0`; each of the three fails with the divisor-zero
`OperationError` exactly when `b ≤ 0`. -/
theorem calculate_divisor_ops :
    ∀ a b : ℚ,
      (0 < b →
        Calculation.calculate "Modulus" a b = .ok (pyMod a b) ∧
        Calculation.calculate "IntegerDivision" a b = .ok ((pyIntDiv a b : ℤ) : ℚ) ∧
        ((pyIntDiv a b : ℤ) : ℚ).den = 1 ∧
        Calculation.calculate "PercentageCalculation" a b = .ok ((a / b) * 100)) ∧
      (b ≤ 0 →
        Calculation.calculate "Modulus" a b =
          .error (.operationError "Division by zero is not allowed") ∧
        Calculation.calculate "IntegerDivision" a b =
          .error (.operationError "Division by zero is not allowed") ∧
        Calculation.calculate "PercentageCalculation" a b =
          .error (.operationError "Division by zero is not allowed")) := by
  intro a b
  constructor
  · intro hb
    refine ⟨?_, ?_, ?_, ?_⟩
    · rw [calculate_modulus_eq, if_pos hb]
    · rw [calculate_intdiv_eq, if_pos hb]
    · exact Rat.den_intCast _
    · rw [calculate_pct_eq, if_pos hb]
  · intro hb
    have hb' : ¬ 0 < b := not_lt.mpr hb
    refine ⟨?_, ?_, ?_⟩
    · rw [calculate_modulus_eq, if_neg hb']
    · rw [calculate_intdiv_eq, if_neg hb']
    · rw [calculate_pct_eq, if_neg hb']

/-- C2, witness for the amended theorem at `(7, 3)` and `(7, 0)`. -/
theorem calculate_divisor_ops_witness :
    Calculation.calculate "Modulus" 7 3 = .ok 1 ∧
    Calculation.calculate "IntegerDivision" 7 3 = .ok 2 ∧
    Calculation.calculate "PercentageCalculation" 7 3 = .ok (700 / 3) ∧
    Calculation.calculate "Modulus" 7 0 =
      .error (.operationError "Division by zero is not allowed") := by
  have h1 := (calculate_divisor_ops 7 3).1 (by norm_num)
  have h2 := (calculate_divisor_ops 7 0).2 (by norm_num)
  exact ⟨h1.1.trans (by rw [pyMod_7_3]), h1.2.1.trans (by rw [pyIntDiv_7_3]; norm_num),
    h1.2.2.2.trans (by norm_num), h2.1⟩

/-- C3.  `perform` followed by `undo` restores the history sequence to
exactly its pre-`perform` content, a subsequent `redo` restores exactly the
post-`perform` content, and `undo` on an empty undo stack returns `false`
and changes nothing.  (`perform`/`undo`/`redo` are modelled from §4.5 of
the spec, their bodies not being among the sources.) -/
theorem perform_undo_redo_spec :
    (∀ (s : CalculatorState) (config : CalculatorConfig) (a b : ℚ) (t₁ t₂ t₃ : ℤ)
       (r : ℚ) (s₁ : CalculatorState),
       s.performOperation config a b t₁ = .ok (r, s₁) →
       (s₁.undo t₂).1 = true ∧ (s₁.undo t₂).2.history = s.history ∧
       ((s₁.undo t₂).2.redo t₃).1 = true ∧ ((s₁.undo t₂).2.redo t₃).2.history = s₁.history) ∧
    (∀ (s : CalculatorState) (t : ℤ), s.undoStack = [] → s.undo t = (false, s)) := by
  constructor
  · intro s config a b t₁ t₂ t₃ r s₁ h
    unfold CalculatorState.performOperation at h
    split at h
    · exact absurd h (by simp)
    · split at h
      · exact absurd h (by simp)
      · simp only [Except.ok.injEq, Prod.mk.injEq] at h
        obtain ⟨hr, hs⟩ := h
        subst hs
        simp [CalculatorState.undo, CalculatorState.redo]
  · intro s t h
    unfold CalculatorState.undo
    rw [h]

/-- C3, witness: a `Modulus` perform on the empty initial state, then
`undo` and `redo`, plus `undo` on the pristine initial state. -/
theorem perform_undo_redo_spec_witness :
    ((⟨[⟨"Modulus", 7, 3, 1, 0⟩], some .modulus, [⟨[], 0⟩], []⟩ : CalculatorState).undo 1).2.history
      = ([] : List Calculation) ∧
    (((⟨[⟨"Modulus", 7, 3, 1, 0⟩], some .modulus, [⟨[], 0⟩], []⟩ :
        CalculatorState).undo 1).2.redo 2).2.history = [⟨"Modulus", 7, 3, 1, 0⟩] ∧
    CalculatorState.init.undo 0 = (false, CalculatorState.init) := by
  have hex : Operation.execute .modulus 7 3 = .ok 1 := by
    have hb : (3 : ℚ) ≠ 0 := by norm_num
    simp [Operation.execute, OpVariant.validateOperands, OpVariant.formula, hb, pyMod_7_3]
  have hperf : (⟨[], some .modulus, [], []⟩ : CalculatorState).performOperation
      ⟨3, true, 10, 1⟩ 7 3 0
      = .ok (1, ⟨[⟨"Modulus", 7, 3, 1, 0⟩], some .modulus, [⟨[], 0⟩], []⟩) := by
    unfold CalculatorState.performOperation
    simp [hex, OpVariant.name]
  have h := perform_undo_redo_spec.1 ⟨[], some .modulus, [], []⟩ ⟨3, true, 10, 1⟩ 7 3 0 1 2 1
      ⟨[⟨"Modulus", 7, 3, 1, 0⟩], some .modulus, [⟨[], 0⟩], []⟩ hperf
  exact ⟨h.2.1, h.2.2.2, perform_undo_redo_spec.2 CalculatorState.init 0 rfl⟩

/-- C4.  Every `Calculation` that constructs successfully round-trips
through `to_dict`/`from_dict`: `from_dict` succeeds and returns a
`Calculation` that is equal to the original — here even including the
timestamp, and in particular equal under `Calculation.__eq__`
(operation, operands and result). -/
theorem fromDict_toDict_roundtrip :
    ∀ (operation : String) (a b : ℚ) (t : ℤ) (c : Calculation),
      Calculation.mk' operation a b t = .ok c →
      Calculation.fromDict (Calculation.toDict c) = .ok c ∧
      (∀ c', Calculation.fromDict (Calculation.toDict c) = .ok c' → c'.eqv c) := by
  intro operation a b t c h
  unfold Calculation.mk' at h
  cases hc : Calculation.calculate operation a b with
  | error e => rw [hc] at h; exact absurd h (by simp)
  | ok r =>
      rw [hc] at h
      simp only [Except.ok.injEq] at h
      subst h
      have hfd : Calculation.fromDict (Calculation.toDict ⟨operation, a, b, r, t⟩)
          = .ok ⟨operation, a, b, r, t⟩ := by
        unfold Calculation.fromDict Calculation.toDict Calculation.mk'
        rw [hc]
      refine ⟨hfd, ?_⟩
      intro c' hc'
      rw [hfd, Except.ok.injEq] at hc'
      subst hc'
      exact ⟨rfl, rfl, rfl, rfl⟩

/-- C4, witness at `Modulus (7, 3)` with timestamp `5`. -/
theorem fromDict_toDict_roundtrip_witness :
    Calculation.fromDict (Calculation.toDict ⟨"Modulus", 7, 3, 1, 5⟩)
      = .ok ⟨"Modulus", 7, 3, 1, 5⟩ := by
  have hmk : Calculation.mk' "Modulus" 7 3 5 = .ok ⟨"Modulus", 7, 3, 1, 5⟩ := by
    unfold Calculation.mk'
    rw [calculate_modulus_eq, if_pos (by norm_num : (0 : ℚ) < 3), pyMod_7_3]
  exact (fromDict_toDict_roundtrip "Modulus" 7 3 5 _ hmk).1

/-- C10.  The magnitude bound of `validate_number` is inclusive: an input
whose absolute value equals `config.max_input_value` exactly is accepted
and returned, because the range check uses a strict `>`. -/
theorem validateNumber_at_bound :
    ∀ (v : RawValue) (q : ℚ) (config : CalculatorConfig),
      (rawToDecimal v).2 = some (.fin q) → |q| = config.maxInputValue →
      InputValidator.validateNumber v config = .ok q := by
  intro v q config h heq
  simp only [InputValidator.validateNumber, h]
  rw [heq, if_neg (lt_irrefl config.maxInputValue)]

/-- C10, witness: the string `"100"` against a maximum of exactly `100`. -/
theorem validateNumber_at_bound_witness :
    InputValidator.validateNumber (.strV "100") ⟨1000, true, 10, 100⟩ = .ok 100 := by
  have hp : (rawToDecimal (.strV "100")).2 = some (.fin 100) := by
    have hlit : parseDecimalLit (pyStrip "100") = some (.fin false 100 0 0) := by decide
    simp [rawToDecimal, parseDecimal, hlit, DecLit.value]
  exact validateNumber_at_bound (.strV "100") 100 ⟨1000, true, 10, 100⟩ hp (by norm_num)

/-- C7.  `OperationFactory.create_operation` looks the name up after
lowercasing: a registered (lowercased) key yields the mapped variant, and
any other name raises the builtin `ValueError` — a kind distinct from
`ValidationError` — whose message carries the offending name verbatim. -/
theorem createOperation_spec :
    ∀ operationType : String,
      (∀ cls : OpVariant,
        OperationFactory.operationsMap.lookup (pyLower operationType) = some cls →
        OperationFactory.createOperation operationType = .ok cls) ∧
      (OperationFactory.operationsMap.lookup (pyLower operationType) = none →
        OperationFactory.createOperation operationType =
          .error (.valueError ("Unknown operation: " ++ operationType))) ∧
      (∀ m₁ m₂ : String, PyErr.valueError m₁ ≠ PyErr.validationError m₂) := by
  intro operationType
  refine ⟨?_, ?_, ?_⟩
  · intro cls h
    unfold OperationFactory.createOperation
    rw [h]
  · intro h
    unfold OperationFactory.createOperation
    rw [h]
  · intro m₁ m₂ hc
    exact PyErr.noConfusion hc

/-- C7, witness: mixed-case `"MODULUS"` resolves to the `Modulus` variant,
and the unregistered name `"bogus"` raises `ValueError` carrying it. -/
theorem createOperation_spec_witness :
    OperationFactory.createOperation "MODULUS" = .ok .modulus ∧
    OperationFactory.createOperation "bogus" =
      .error (.valueError "Unknown operation: bogus") := by
  have h1 := (createOperation_spec "MODULUS").1 .modulus (by decide)
  have h2 := (createOperation_spec "bogus").2.1 (by decide)
  exact ⟨h1, h2.trans (by decide)⟩

/-- C8.  `AutoSaveObserver.update` raises (`AttributeError`) on a `None`
calculation no matter the configuration, and for a real calculation calls
`save_history` exactly when `config.auto_save` is enabled. -/
theorem autoSaveObserver_update_spec :
    ∀ (config : CalculatorConfig) (c : Calculation),
      AutoSaveObserver.update config none =
        .error (.attributeError "Calculation cannot be None") ∧
      (config.autoSave = true →
        AutoSaveObserver.update config (some c) =
          .ok [.saveHistory, .logInfo "History auto-saved"]) ∧
      (config.autoSave = false →
        AutoSaveObserver.update config (some c) = .ok []) := by
  intro config c
  refine ⟨rfl, ?_, ?_⟩
  · intro h
    simp [AutoSaveObserver.update, h]
  · intro h
    simp [AutoSaveObserver.update, h]

/-- C8, witness: both auto-save settings on a concrete calculation. -/
theorem autoSaveObserver_update_spec_witness :
    AutoSaveObserver.update ⟨1000, true, 10, 100⟩ (some ⟨"Modulus", 7, 3, 1, 0⟩) =
      .ok [.saveHistory, .logInfo "History auto-saved"] ∧
    AutoSaveObserver.update ⟨1000, false, 10, 100⟩ (some ⟨"Modulus", 7, 3, 1, 0⟩) =
      .ok [] :=
  ⟨(autoSaveObserver_update_spec ⟨1000, true, 10, 100⟩ ⟨"Modulus", 7, 3, 1, 0⟩).2.1 rfl,
   (autoSaveObserver_update_spec ⟨1000, false, 10, 100⟩ ⟨"Modulus", 7, 3, 1, 0⟩).2.2 rfl⟩

/-- C9.  Passing an explicit `0` for `max_history_size`, `precision` or
`max_input_value` is silently replaced by the defaults (`1000`, `10`,
`1e999`) through the `or`-based truthiness fallbacks, so `validate()`
succeeds; a strictly negative explicit value is retained and makes
`validate()` raise `ConfigurationError`. -/
theorem config_zero_fallback_spec :
    (CalculatorConfig.mk' (some 0) none (some 0) (some 0)).maxHistorySize = 1000 ∧
    (CalculatorConfig.mk' (some 0) none (some 0) (some 0)).precision = 10 ∧
    (CalculatorConfig.mk' (some 0) none (some 0) (some 0)).maxInputValue = 10 ^ 999 ∧
    (CalculatorConfig.mk' (some 0) none (some 0) (some 0)).validate = .ok () ∧
    (∀ n : ℤ, n < 0 →
      (CalculatorConfig.mk' (some n) none none none).maxHistorySize = n ∧
      (CalculatorConfig.mk' (some n) none none none).validate =
        .error (.configurationError "max_history_size must be positive")) ∧
    (∀ n : ℤ, n < 0 →
      (CalculatorConfig.mk' none none (some n) none).precision = n ∧
      (CalculatorConfig.mk' none none (some n) none).validate =
        .error (.configurationError "precision must be positive")) ∧
    (∀ q : ℚ, q < 0 →
      (CalculatorConfig.mk' none none none (some q)).maxInputValue = q ∧
      (CalculatorConfig.mk' none none none (some q)).validate =
        .error (.configurationError "max_input_value must be positive")) := by
  have hpow : (0 : ℚ) < 10 ^ 999 := pow_pos (by norm_num) 999
  refine ⟨by simp [CalculatorConfig.mk', pyOrInt],
    by simp [CalculatorConfig.mk', pyOrInt],
    by simp [CalculatorConfig.mk', pyOrRat],
    ?_, ?_, ?_, ?_⟩
  · norm_num [CalculatorConfig.validate, CalculatorConfig.mk', pyOrInt, pyOrRat,
      not_le.mpr hpow]
  · intro n hn
    refine ⟨by simp [CalculatorConfig.mk', pyOrInt, hn.ne], ?_⟩
    simp [CalculatorConfig.validate, CalculatorConfig.mk', pyOrInt, hn.ne, hn.le]
  · intro n hn
    refine ⟨by simp [CalculatorConfig.mk', pyOrInt, hn.ne], ?_⟩
    norm_num [CalculatorConfig.validate, CalculatorConfig.mk', pyOrInt, pyOrRat,
      hn.ne, hn.le]
  · intro q hq
    refine ⟨by simp [CalculatorConfig.mk', pyOrRat, hq.ne], ?_⟩
    norm_num [CalculatorConfig.validate, CalculatorConfig.mk', pyOrInt, pyOrRat,
      hq.ne, hq.le]

/-- C9, witness: `-5` (history size and precision) and `-1/2` (maximum
input value) are retained and rejected by `validate`. -/
theorem config_zero_fallback_spec_witness :
    (CalculatorConfig.mk' (some (-5)) none none none).maxHistorySize = -5 ∧
    (CalculatorConfig.mk' (some (-5)) none none none).validate =
      .error (.configurationError "max_history_size must be positive") ∧
    (CalculatorConfig.mk' none none (some (-5)) none).validate =
      .error (.configurationError "precision must be positive") ∧
    (CalculatorConfig.mk' none none none (some (-1 / 2))).validate =
      .error (.configurationError "max_input_value must be positive") := by
  have h1 := config_zero_fallback_spec.2.2.2.2.1 (-5) (by norm_num)
  have h2 := config_zero_fallback_spec.2.2.2.2.2.1 (-5) (by norm_num)
  have h3 := config_zero_fallback_spec.2.2.2.2.2.2 (-1 / 2) (by norm_num)
  exact ⟨h1.1, h1.2, h2.2, h3.2⟩
